import Mathlib

/-!
Verification of the new-data tracking subsystem of the Lok Sabha database API
(`main.py`, with `database.py` and `models.py` as context).

The store is modelled as one list of rows per tracked table plus the
`scrape_tracker` table.  Each activity-table row carries the columns the
subsystem reads or writes: a table-specific primary key (`questionId`,
`debateId` or `id`, modelled as `pk`), the two member-reference columns
`mp_code` and `srno` (each nullable, hence `Option Int`), the `is_new` flag,
the `scraped_at` timestamp, and an opaque remainder `rest` standing for all
further columns, which the subsystem never touches.

Endpoint functions are translated from `main.py` one at a time; SQL
`UPDATE`/`SELECT` statements become list operations, MySQL `cursor.rowcount`
after an `UPDATE` is the number of rows actually changed, and
`HTTPException` becomes `Except.error` carrying status code and detail.
-/

namespace LokSabha

/-- A row of one of the activity tables participating in new-data tracking. -/
structure Row where
  pk : Int
  mp_code : Option Int
  srno : Option Int
  is_new : Bool
  scraped_at : Int
  rest : List (String × String)
deriving DecidableEq, Repr

/-- A row of the `scrape_tracker` table (read-only for this core). -/
structure TrackerRow where
  table_name : String
  last_max_id : Int
  last_scrape_time : Int
  new_records_count : Int
  total_records : Int
  scrape_status : String
deriving DecidableEq, Repr

/-- The relational store: the thirteen tables enumerated in
`get_new_data_summary` plus `scrape_tracker`. -/
structure Store where
  assurance : List Row
  gallery : List Row
  member_attendance : List Row
  member_bills : List Row
  member_committees : List Row
  member_dashboard : List Row
  government_bills : List Row
  member_debates : List Row
  member_other_details : List Row
  member_personal_details : List Row
  member_questions : List Row
  member_special_mentions : List Row
  mp_tour : List Row
  scrape_tracker : List TrackerRow
deriving DecidableEq, Repr

/-- The empty store. -/
def Store.empty : Store :=
  { assurance := [], gallery := [], member_attendance := [], member_bills := [],
    member_committees := [], member_dashboard := [], government_bills := [],
    member_debates := [], member_other_details := [], member_personal_details := [],
    member_questions := [], member_special_mentions := [], mp_tour := [],
    scrape_tracker := [] }

/-- Dynamic table access, the counterpart of interpolating a table name into
`FROM {table}`.  Unknown names yield the empty table (all call sites in the
source guard the name against a fixed list first). -/
def getTable (s : Store) (t : String) : List Row :=
  if t = "assurance" then s.assurance
  else if t = "gallery" then s.gallery
  else if t = "member_attendance" then s.member_attendance
  else if t = "member_bills" then s.member_bills
  else if t = "member_committees" then s.member_committees
  else if t = "member_dashboard" then s.member_dashboard
  else if t = "government_bills" then s.government_bills
  else if t = "member_debates" then s.member_debates
  else if t = "member_other_details" then s.member_other_details
  else if t = "member_personal_details" then s.member_personal_details
  else if t = "member_questions" then s.member_questions
  else if t = "member_special_mentions" then s.member_special_mentions
  else if t = "mp_tour" then s.mp_tour
  else []

/-- Dynamic table update, the counterpart of `UPDATE {table} ...`. -/
def setTable (s : Store) (t : String) (l : List Row) : Store :=
  if t = "assurance" then { s with assurance := l }
  else if t = "gallery" then { s with gallery := l }
  else if t = "member_attendance" then { s with member_attendance := l }
  else if t = "member_bills" then { s with member_bills := l }
  else if t = "member_committees" then { s with member_committees := l }
  else if t = "member_dashboard" then { s with member_dashboard := l }
  else if t = "government_bills" then { s with government_bills := l }
  else if t = "member_debates" then { s with member_debates := l }
  else if t = "member_other_details" then { s with member_other_details := l }
  else if t = "member_personal_details" then { s with member_personal_details := l }
  else if t = "member_questions" then { s with member_questions := l }
  else if t = "member_special_mentions" then { s with member_special_mentions := l }
  else if t = "mp_tour" then { s with mp_tour := l }
  else s

/-- `SELECT COUNT(*) FROM t WHERE is_new = TRUE`. -/
def unseenCount (s : Store) (t : String) : Nat :=
  ((getTable s t).filter (fun r => r.is_new)).length

/-- The `tables` list hard-coded in `get_new_data_summary`. -/
def trackedTables : List String :=
  ["assurance", "gallery", "member_attendance", "member_bills",
   "member_committees", "member_dashboard", "government_bills",
   "member_debates", "member_other_details", "member_personal_details",
   "member_questions", "member_special_mentions", "mp_tour"]

/-- One `{"table": ..., "new_count": ...}` entry of the summary. -/
structure SummaryEntry where
  table : String
  new_count : Nat
deriving DecidableEq, Repr

/-- The response of `GET /api/new-data/summary`. -/
structure Summary where
  total_new_records : Nat
  tables : List SummaryEntry
deriving DecidableEq, Repr

/-- One iteration of the loop in `get_new_data_summary`: count the unseen
rows of table `t` and keep the entry only when the count is positive. -/
def summaryEntry? (s : Store) (t : String) : Option SummaryEntry :=
  let c := unseenCount s t
  if 0 < c then some { table := t, new_count := c } else none

/-- `get_new_data_summary` from `main.py`: per tracked table, count the
unseen rows; keep the tables with a positive count; total the kept counts. -/
def get_new_data_summary (s : Store) : Summary :=
  let summary := trackedTables.filterMap (summaryEntry? s)
  { total_new_records := (summary.map (fun e => e.new_count)).sum
    tables := summary }

/-- A JSON value appearing in the listing-endpoint response dictionaries:
either a number or an array of rows. -/
inductive JVal where
  | num (n : Nat)
  | rows (rs : List Row)
deriving DecidableEq, Repr

/-- The ordering `ORDER BY scraped_at DESC` sorts by: `a` before `b` when
`a.scraped_at ≥ b.scraped_at`. -/
def scrapedGE (a b : Row) : Prop := b.scraped_at ≤ a.scraped_at

instance : DecidableRel scrapedGE :=
  fun a b => inferInstanceAs (Decidable (b.scraped_at ≤ a.scraped_at))

instance : IsTotal Row scrapedGE :=
  ⟨fun a b => le_total b.scraped_at a.scraped_at⟩

instance : IsTrans Row scrapedGE :=
  ⟨fun _ _ _ h1 h2 => le_trans h2 h1⟩

/-- `ORDER BY scraped_at DESC` (ties broken arbitrarily; we fix one order). -/
def orderByScrapedDesc (l : List Row) : List Row :=
  l.insertionSort scrapedGE

/-- `GET /api/questions/new` (`get_new_questions`): unseen-question count,
then the page of unseen questions ordered by `scraped_at DESC` with
`LIMIT size OFFSET (page-1)*size`, wrapped in the response dictionary. -/
def get_new_questions (s : Store) (page size : Nat) :
    List (String × JVal) × Store :=
  let offset := (page - 1) * size
  let total := (s.member_questions.filter (fun r => r.is_new)).length
  let data :=
    ((orderByScrapedDesc (s.member_questions.filter (fun r => r.is_new))).drop
      offset).take size
  ([("total_new", JVal.num total), ("page", JVal.num page),
    ("size", JVal.num size), ("pages", JVal.num ((total + size - 1) / size)),
    ("data", JVal.rows data)], s)

/-- `GET /api/debates/new` (`get_new_debates`): as for questions but on
`member_debates`, and the response dictionary carries no `pages` key. -/
def get_new_debates (s : Store) (page size : Nat) :
    List (String × JVal) × Store :=
  let offset := (page - 1) * size
  let total := (s.member_debates.filter (fun r => r.is_new)).length
  let data :=
    ((orderByScrapedDesc (s.member_debates.filter (fun r => r.is_new))).drop
      offset).take size
  ([("total_new", JVal.num total), ("page", JVal.num page),
    ("size", JVal.num size), ("data", JVal.rows data)], s)

/-- `GET /api/bills/government/new` (`get_new_government_bills`): on
`government_bills`, no `pages` key. -/
def get_new_government_bills (s : Store) (page size : Nat) :
    List (String × JVal) × Store :=
  let offset := (page - 1) * size
  let total := (s.government_bills.filter (fun r => r.is_new)).length
  let data :=
    ((orderByScrapedDesc (s.government_bills.filter (fun r => r.is_new))).drop
      offset).take size
  ([("total_new", JVal.num total), ("page", JVal.num page),
    ("size", JVal.num size), ("data", JVal.rows data)], s)

/-- `GET /api/special-mentions/new` (`get_new_special_mentions`): on
`member_special_mentions`, no `pages` key. -/
def get_new_special_mentions (s : Store) (page size : Nat) :
    List (String × JVal) × Store :=
  let offset := (page - 1) * size
  let total := (s.member_special_mentions.filter (fun r => r.is_new)).length
  let data :=
    ((orderByScrapedDesc
      (s.member_special_mentions.filter (fun r => r.is_new))).drop
      offset).take size
  ([("total_new", JVal.num total), ("page", JVal.num page),
    ("size", JVal.num size), ("data", JVal.rows data)], s)

/-- The `activities` dictionary of `get_member_new_activities`. -/
structure MemberActivities where
  new_questions : Nat
  new_debates : Nat
  new_bills : Nat
  new_mentions : Nat
deriving DecidableEq, Repr

/-- The response of `GET /api/members/{mp_code}/new-activities`. -/
structure MemberActivitiesResponse where
  mp_code : Int
  activities : MemberActivities
  total_new : Nat
deriving DecidableEq, Repr

/-- `SELECT COUNT(*) FROM t WHERE mp_code = %s AND is_new = TRUE`: the filter
`get_member_new_activities` runs against each of its four tables.  A SQL
`NULL` in the `mp_code` column never equals a supplied code. -/
def countNewByMpCode (rows : List Row) (code : Int) : Nat :=
  (rows.filter (fun r => r.mp_code == some code && r.is_new)).length

/-- `SELECT COUNT(*) ... WHERE srno = %s AND is_new = TRUE`: the filter on the
`srno` column, the member-reference column that `get_questions`,
`get_debates`, `get_special_mentions` and `get_complete_profile` use for
`member_questions`, `member_debates` and `member_special_mentions`. -/
def countNewBySrno (rows : List Row) (code : Int) : Nat :=
  (rows.filter (fun r => r.srno == some code && r.is_new)).length

/-- `get_member_new_activities` from `main.py`: counts unseen rows in
`member_questions`, `member_debates`, `member_bills` and
`member_special_mentions`, filtering every one of the four tables on the
column literally named `mp_code`. -/
def get_member_new_activities (s : Store) (code : Int) :
    MemberActivitiesResponse :=
  let a : MemberActivities :=
    { new_questions := countNewByMpCode s.member_questions code
      new_debates := countNewByMpCode s.member_debates code
      new_bills := countNewByMpCode s.member_bills code
      new_mentions := countNewByMpCode s.member_special_mentions code }
  { mp_code := code
    activities := a
    total_new := a.new_questions + a.new_debates + a.new_bills + a.new_mentions }

/-- Modelled from the spec: the per-member new-activity counts as §4.1 states
them, counting unseen rows "where the owner_key matches `mp_code`", with the
per-table owner column taken from the rest of the source: `srno` for
`member_questions`, `member_debates` and `member_special_mentions` (the
column those tables are filtered by in `get_questions`, `get_debates`,
`get_special_mentions` and `get_complete_profile`, and the only
member-reference column their `models.py` response models carry), and
`mp_code` for `member_bills`. -/
def spec_member_new_activities (s : Store) (code : Int) :
    MemberActivitiesResponse :=
  let a : MemberActivities :=
    { new_questions := countNewBySrno s.member_questions code
      new_debates := countNewBySrno s.member_debates code
      new_bills := countNewByMpCode s.member_bills code
      new_mentions := countNewBySrno s.member_special_mentions code }
  { mp_code := code
    activities := a
    total_new := a.new_questions + a.new_debates + a.new_bills + a.new_mentions }

/-- An `HTTPException`: status code and detail string. -/
structure HErr where
  status_code : Nat
  detail : String
deriving DecidableEq, Repr

/-- The success payload of the single-record mark-read endpoints. -/
structure MarkReadResponse where
  status : String
  message : String
deriving DecidableEq, Repr

/-- The success payload of `mark_all_read`. -/
structure MarkAllResponse where
  status : String
  table : String
  records_marked : Nat
deriving DecidableEq, Repr

/-- `POST /api/questions/{question_id}/mark-read` (`mark_question_read`):
run `UPDATE member_questions SET is_new = FALSE WHERE questionId = %s` and
commit; `cursor.rowcount` is the number of rows the update changed (rows
matching the key that were still `is_new`); a zero count raises 404. -/
def mark_question_read (s : Store) (question_id : Int) :
    Except HErr MarkReadResponse × Store :=
  let affected :=
    (s.member_questions.filter (fun r => r.pk == question_id && r.is_new)).length
  let s' := { s with member_questions :=
    s.member_questions.map (fun r =>
      if r.pk == question_id then { r with is_new := false } else r) }
  (if affected = 0 then
    Except.error { status_code := 404, detail := "Question not found" }
  else
    Except.ok { status := "success", message := "Question marked as read" }, s')

/-- `POST /api/debates/{debate_id}/mark-read` (`mark_debate_read`): the same
update on `member_debates` keyed by `debateId`. -/
def mark_debate_read (s : Store) (debate_id : Int) :
    Except HErr MarkReadResponse × Store :=
  let affected :=
    (s.member_debates.filter (fun r => r.pk == debate_id && r.is_new)).length
  let s' := { s with member_debates :=
    s.member_debates.map (fun r =>
      if r.pk == debate_id then { r with is_new := false } else r) }
  (if affected = 0 then
    Except.error { status_code := 404, detail := "Debate not found" }
  else
    Except.ok { status := "success", message := "Debate marked as read" }, s')

/-- The `allowed_tables` list hard-coded in `mark_all_read`. -/
def allowed_tables : List String :=
  ["member_questions", "member_debates", "member_special_mentions",
   "government_bills", "member_bills", "assurance", "gallery"]

/-- `POST /api/new-data/mark-all-read/{table_name}` (`mark_all_read`): reject
names outside `allowed_tables` with a 400 before touching the store;
otherwise run `UPDATE {table_name} SET is_new = FALSE WHERE is_new = TRUE`,
whose rowcount is the number of previously-unseen rows. -/
def mark_all_read (s : Store) (table_name : String) :
    Except HErr MarkAllResponse × Store :=
  if table_name ∈ allowed_tables then
    let rows := getTable s table_name
    let affected := (rows.filter (fun r => r.is_new)).length
    let s' := setTable s table_name
      (rows.map (fun r => if r.is_new then { r with is_new := false } else r))
    (Except.ok { status := "success", table := table_name,
                 records_marked := affected }, s')
  else
    (Except.error { status_code := 400, detail := "Invalid table name" }, s)

/-- The operations of the new-data tracking subsystem. -/
inductive Op where
  | markQuestionReadOp (question_id : Int)
  | markDebateReadOp (debate_id : Int)
  | markAllReadOp (table_name : String)
  | newDataSummaryOp
  | newQuestionsOp (page size : Nat)
  | newDebatesOp (page size : Nat)
  | newGovernmentBillsOp (page size : Nat)
  | newSpecialMentionsOp (page size : Nat)
  | memberNewActivitiesOp (code : Int)
  | scrapeTrackerOp
deriving DecidableEq, Repr

/-- The store an operation leaves behind.  The query endpoints
(`get_new_data_summary`, the four listings, `get_member_new_activities`,
`get_scrape_tracker`) execute only `SELECT` statements, so they leave the
store as it was. -/
def Op.apply (op : Op) (s : Store) : Store :=
  match op with
  | Op.markQuestionReadOp question_id => (mark_question_read s question_id).2
  | Op.markDebateReadOp debate_id => (mark_debate_read s debate_id).2
  | Op.markAllReadOp table_name => (mark_all_read s table_name).2
  | Op.newDataSummaryOp => s
  | Op.newQuestionsOp _ _ => s
  | Op.newDebatesOp _ _ => s
  | Op.newGovernmentBillsOp _ _ => s
  | Op.newSpecialMentionsOp _ _ => s
  | Op.memberNewActivitiesOp _ => s
  | Op.scrapeTrackerOp => s

/-- Which rows a request targets: the single mark-read operations target the
rows of their table carrying the given key; bulk mark-all-read targets every
row of a valid named table; queries target nothing. -/
def targetsRow (op : Op) (t : String) (r : Row) : Prop :=
  match op with
  | Op.markQuestionReadOp question_id => t = "member_questions" ∧ r.pk = question_id
  | Op.markDebateReadOp debate_id => t = "member_debates" ∧ r.pk = debate_id
  | Op.markAllReadOp table_name => table_name ∈ allowed_tables ∧ t = table_name
  | _ => False

/-- Every field of a row except `is_new` is preserved. -/
def rowFrame (r r' : Row) : Prop :=
  r'.pk = r.pk ∧ r'.mp_code = r.mp_code ∧ r'.srno = r.srno ∧
  r'.scraped_at = r.scraped_at ∧ r'.rest = r.rest

/-- The `data` array of a listing-endpoint response dictionary. -/
def respData (resp : List (String × JVal)) : List Row :=
  match resp.lookup "data" with
  | some (JVal.rows rs) => rs
  | _ => []

/-- A sample store: two questions (one unseen), one unseen debate. -/
def rowA : Row :=
  { pk := 1, mp_code := some 5, srno := some 5, is_new := true,
    scraped_at := 10, rest := [] }

/-- A second sample row, already acknowledged. -/
def rowB : Row :=
  { pk := 2, mp_code := some 6, srno := some 6, is_new := false,
    scraped_at := 20, rest := [] }

/-- Sample store used to instantiate theorems with hypotheses. -/
def sampleStore : Store :=
  { Store.empty with member_questions := [rowA, rowB], member_debates := [rowA] }

/-! ## Helper lemmas -/

lemma tracked_cases {t : String} (ht : t ∈ trackedTables) :
    t = "assurance" ∨ t = "gallery" ∨ t = "member_attendance" ∨
    t = "member_bills" ∨ t = "member_committees" ∨ t = "member_dashboard" ∨
    t = "government_bills" ∨ t = "member_debates" ∨
    t = "member_other_details" ∨ t = "member_personal_details" ∨
    t = "member_questions" ∨ t = "member_special_mentions" ∨ t = "mp_tour" := by
  simpa [trackedTables] using ht

lemma allowed_cases {t : String} (ht : t ∈ allowed_tables) :
    t = "member_questions" ∨ t = "member_debates" ∨
    t = "member_special_mentions" ∨ t = "government_bills" ∨
    t = "member_bills" ∨ t = "assurance" ∨ t = "gallery" := by
  simpa [allowed_tables] using ht

lemma allowed_mem_tracked {t : String} (ht : t ∈ allowed_tables) :
    t ∈ trackedTables := by
  rcases allowed_cases ht with rfl | rfl | rfl | rfl | rfl | rfl | rfl <;> decide

lemma getTable_setTable_same (s : Store) {t : String} (ht : t ∈ trackedTables)
    (l : List Row) : getTable (setTable s t l) t = l := by
  rcases tracked_cases ht with
    rfl | rfl | rfl | rfl | rfl | rfl | rfl | rfl | rfl | rfl | rfl | rfl | rfl <;>
    rfl

lemma setTable_scrape_tracker (s : Store) {t : String} (ht : t ∈ trackedTables)
    (l : List Row) : (setTable s t l).scrape_tracker = s.scrape_tracker := by
  rcases tracked_cases ht with
    rfl | rfl | rfl | rfl | rfl | rfl | rfl | rfl | rfl | rfl | rfl | rfl | rfl <;>
    rfl

/-- Membership in the summary's table list, characterised. -/
lemma summary_mem_iff (s : Store) (e : SummaryEntry) :
    e ∈ (get_new_data_summary s).tables ↔
      e.table ∈ trackedTables ∧ e.new_count = unseenCount s e.table ∧
        0 < e.new_count := by
  simp only [get_new_data_summary, List.mem_filterMap]
  constructor
  · rintro ⟨a, ha, hfa⟩
    rw [summaryEntry?] at hfa
    by_cases h : 0 < unseenCount s a
    · rw [if_pos h] at hfa
      cases Option.some.inj hfa
      exact ⟨ha, rfl, h⟩
    · rw [if_neg h] at hfa
      exact absurd hfa (by simp)
  · rintro ⟨ht, hc, hpos⟩
    refine ⟨e.table, ht, ?_⟩
    rw [summaryEntry?]
    show (if 0 < unseenCount s e.table then
        some ({ table := e.table, new_count := unseenCount s e.table } :
          SummaryEntry)
      else none) = some e
    rw [← hc, if_pos hpos]

lemma sum_filterMap_counts (s : Store) (L : List String) :
    ((L.filterMap (summaryEntry? s)).map (fun e => e.new_count)).sum
      = (L.map (fun t => unseenCount s t)).sum := by
  induction L with
  | nil => rfl
  | cons a L ih =>
    by_cases h : 0 < unseenCount s a
    · have hf : summaryEntry? s a =
          some ({ table := a, new_count := unseenCount s a } : SummaryEntry) := by
        rw [summaryEntry?]
        show (if 0 < unseenCount s a then
            some ({ table := a, new_count := unseenCount s a } : SummaryEntry)
          else none) =
          some ({ table := a, new_count := unseenCount s a } : SummaryEntry)
        rw [if_pos h]
      rw [List.filterMap_cons_some hf, List.map_cons, List.sum_cons, ih,
          List.map_cons, List.sum_cons]
    · have hf : summaryEntry? s a = none := by
        rw [summaryEntry?]
        show (if 0 < unseenCount s a then
            some ({ table := a, new_count := unseenCount s a } : SummaryEntry)
          else none) = none
        rw [if_neg h]
      rw [List.filterMap_cons_none hf, ih, List.map_cons, List.sum_cons]
      omega

lemma summary_total_eq_sum_tracked (s : Store) :
    (get_new_data_summary s).total_new_records =
      (trackedTables.map (fun t => unseenCount s t)).sum :=
  sum_filterMap_counts s trackedTables

/-! ## Claims -/

/-- Claim C6: bulk acknowledgment with a table name not in the fixed
allow-list is rejected with a 400 invalid-table error before any store
access, and the store is returned unchanged. -/
theorem mark_all_read_rejects_invalid_table (s : Store) (t : String)
    (ht : t ∉ allowed_tables) :
    mark_all_read s t =
      (Except.error { status_code := 400, detail := "Invalid table name" }, s) := by
  simp [mark_all_read, ht]

theorem mark_all_read_rejects_invalid_table_witness :
    mark_all_read sampleStore "not_a_real_table" =
      (Except.error { status_code := 400, detail := "Invalid table name" },
        sampleStore) :=
  mark_all_read_rejects_invalid_table sampleStore "not_a_real_table" (by decide)

/-- Claim C7: the global new-data summary lists exactly the trackable tables
with a positive unseen count, each with its unseen count, and its
`total_new_records` is the sum of the listed counts, equivalently the sum of
the unseen counts over all trackable tables. -/
theorem get_new_data_summary_correct (s : Store) :
    (∀ e : SummaryEntry, e ∈ (get_new_data_summary s).tables ↔
      e.table ∈ trackedTables ∧ e.new_count = unseenCount s e.table ∧
        0 < e.new_count) ∧
    (get_new_data_summary s).total_new_records =
      ((get_new_data_summary s).tables.map (fun e => e.new_count)).sum ∧
    (get_new_data_summary s).total_new_records =
      (trackedTables.map (fun t => unseenCount s t)).sum :=
  ⟨fun e => summary_mem_iff s e, rfl, summary_total_eq_sum_tracked s⟩

/-- Claim C3: for every table in the bulk-acknowledgment allow-list and every
store, `mark_all_read` reports success with the table name and the number of
rows that were unseen (0 included), and sets `is_new = false` on exactly the
rows that had `is_new = true`, leaving the others as they were. -/
theorem mark_all_read_marks_unseen (s : Store) (t : String)
    (ht : t ∈ allowed_tables) :
    (mark_all_read s t).1 = Except.ok
      { status := "success", table := t, records_marked := unseenCount s t } ∧
    List.Forall₂ (fun r r' =>
        (r.is_new = true → r' = { r with is_new := false }) ∧
        (r.is_new = false → r' = r))
      (getTable s t) (getTable (mark_all_read s t).2 t) := by
  have hm : mark_all_read s t =
      (Except.ok
        { status := "success", table := t
          records_marked := ((getTable s t).filter (fun r => r.is_new)).length },
        setTable s t ((getTable s t).map
          (fun r => if r.is_new then { r with is_new := false } else r))) := by
    rw [mark_all_read, if_pos ht]
  constructor
  · rw [hm]
    rfl
  · rw [hm]
    show List.Forall₂ _ (getTable s t) (getTable (setTable s t _) t)
    rw [getTable_setTable_same s (allowed_mem_tracked ht),
        List.forall₂_map_right_iff]
    refine List.forall₂_same.2 (fun r _ => ?_)
    cases hr : r.is_new <;> simp [hr]

theorem mark_all_read_marks_unseen_witness :
    (mark_all_read sampleStore "member_questions").1 = Except.ok
      { status := "success", table := "member_questions",
        records_marked := unseenCount sampleStore "member_questions" } ∧
    List.Forall₂ (fun r r' =>
        (r.is_new = true → r' = { r with is_new := false }) ∧
        (r.is_new = false → r' = r))
      (getTable sampleStore "member_questions")
      (getTable (mark_all_read sampleStore "member_questions").2
        "member_questions") :=
  mark_all_read_marks_unseen sampleStore "member_questions" (by decide)

/-- Claim C5: right after a successful bulk acknowledgment of table `t`, the
unseen count of `t` is zero and the global summary no longer lists `t`. -/
theorem mark_all_read_clears_table (s : Store) (t : String)
    (ht : t ∈ allowed_tables) :
    unseenCount (mark_all_read s t).2 t = 0 ∧
    ∀ e ∈ (get_new_data_summary (mark_all_read s t).2).tables, e.table ≠ t := by
  have hm2 : (mark_all_read s t).2 = setTable s t ((getTable s t).map
      (fun r => if r.is_new then { r with is_new := false } else r)) := by
    rw [mark_all_read, if_pos ht]
  have hz : unseenCount (mark_all_read s t).2 t = 0 := by
    rw [hm2, unseenCount, getTable_setTable_same s (allowed_mem_tracked ht),
        List.length_eq_zero, List.filter_eq_nil_iff]
    intro a ha
    rcases List.mem_map.1 ha with ⟨r, _, rfl⟩
    cases hr : r.is_new <;> simp [hr]
  refine ⟨hz, ?_⟩
  intro e he heq
  rcases (summary_mem_iff _ e).1 he with ⟨_, hc, hpos⟩
  rw [heq] at hc
  rw [hz] at hc
  omega

theorem mark_all_read_clears_table_witness :
    unseenCount (mark_all_read sampleStore "member_questions").2
      "member_questions" = 0 ∧
    ∀ e ∈ (get_new_data_summary
        (mark_all_read sampleStore "member_questions").2).tables,
      e.table ≠ "member_questions" :=
  mark_all_read_clears_table sampleStore "member_questions" (by decide)

/-! ### Single-record acknowledgment -/

lemma row_flip_self (r : Row) (h : r.is_new = false) :
    ({ r with is_new := false } : Row) = r := by
  cases r
  simp_all

lemma flip_forall2 (l : List Row) (i : Int) :
    List.Forall₂ (fun r r' =>
        (r.pk = i → r' = { r with is_new := false }) ∧ (r.pk ≠ i → r' = r))
      l (l.map (fun r => if r.pk == i then { r with is_new := false } else r)) := by
  rw [List.forall₂_map_right_iff]
  refine List.forall₂_same.2 (fun r _ => ?_)
  by_cases h : r.pk = i <;> simp [h]

lemma matched_zero_iff (l : List Row) (i : Int) :
    (l.filter (fun r => r.pk == i && r.is_new)).length = 0 ↔
      ∀ r ∈ l, ¬(r.pk = i ∧ r.is_new = true) := by
  rw [List.length_eq_zero, List.filter_eq_nil_iff]
  constructor
  · intro h r hr hc
    exact h r hr (by rw [Bool.and_eq_true, beq_iff_eq]; exact hc)
  · intro h r hr hb
    rw [Bool.and_eq_true, beq_iff_eq] at hb
    exact h r hr ⟨hb.1, hb.2⟩

lemma flip_noop (l : List Row) (i : Int)
    (h : ∀ r ∈ l, ¬(r.pk = i ∧ r.is_new = true)) :
    l.map (fun r => if r.pk == i then { r with is_new := false } else r) = l := by
  have hc : ∀ r ∈ l,
      (if r.pk == i then { r with is_new := false } else r) = id r := by
    intro r hr
    by_cases hpk : r.pk = i
    · have hnew : r.is_new = false := by
        rcases Bool.eq_false_or_eq_true r.is_new with htt | hf
        · exact absurd ⟨hpk, htt⟩ (h r hr)
        · exact hf
      rw [if_pos (beq_iff_eq.2 hpk)]
      exact row_flip_self r hnew
    · rw [if_neg (by simpa using hpk)]
      rfl
  rw [List.map_congr_left hc, List.map_id]

lemma flip_no_matched (l : List Row) (i : Int) :
    ((l.map (fun r => if r.pk == i then { r with is_new := false } else r)).filter
      (fun r => r.pk == i && r.is_new)).length = 0 := by
  rw [List.length_eq_zero, List.filter_eq_nil_iff]
  intro a ha
  rcases List.mem_map.1 ha with ⟨r, _, rfl⟩
  by_cases h : r.pk = i <;> simp [h]

lemma flip_idem (l : List Row) (i : Int) :
    ((l.map (fun r => if r.pk == i then { r with is_new := false } else r)).map
      (fun r => if r.pk == i then { r with is_new := false } else r)) =
      l.map (fun r => if r.pk == i then { r with is_new := false } else r) := by
  rw [List.map_map]
  refine List.map_congr_left (fun r _ => ?_)
  by_cases h : r.pk = i <;> simp [Function.comp, h]

lemma mark_question_read_snd (s : Store) (i : Int) :
    (mark_question_read s i).2 =
      { s with
        member_questions :=
          s.member_questions.map
            (fun r => if r.pk == i then { r with is_new := false } else r) } :=
  rfl

lemma mark_debate_read_snd (s : Store) (i : Int) :
    (mark_debate_read s i).2 =
      { s with
        member_debates :=
          s.member_debates.map
            (fun r => if r.pk == i then { r with is_new := false } else r) } :=
  rfl

lemma mark_question_read_fst (s : Store) (i : Int) :
    (mark_question_read s i).1 =
      if (s.member_questions.filter
          (fun r => r.pk == i && r.is_new)).length = 0 then
        Except.error { status_code := 404, detail := "Question not found" }
      else
        Except.ok { status := "success", message := "Question marked as read" } :=
  rfl

lemma mark_debate_read_fst (s : Store) (i : Int) :
    (mark_debate_read s i).1 =
      if (s.member_debates.filter
          (fun r => r.pk == i && r.is_new)).length = 0 then
        Except.error { status_code := 404, detail := "Debate not found" }
      else
        Except.ok { status := "success", message := "Debate marked as read" } :=
  rfl

lemma mark_question_read_fst_iff (s : Store) (i : Int) :
    (mark_question_read s i).1 = Except.ok
        { status := "success", message := "Question marked as read" } ↔
      ∃ r ∈ s.member_questions, r.pk = i ∧ r.is_new = true := by
  rw [mark_question_read_fst]
  by_cases h0 : (s.member_questions.filter
      (fun r => r.pk == i && r.is_new)).length = 0
  · rw [if_pos h0]
    constructor
    · intro habs
      exact absurd habs (by simp)
    · rintro ⟨r, hr, hc⟩
      exact absurd hc ((matched_zero_iff _ _).1 h0 r hr)
  · rw [if_neg h0]
    constructor
    · intro _
      by_contra hne
      exact h0 ((matched_zero_iff _ _).2 (fun r hr hc => hne ⟨r, hr, hc⟩))
    · intro _
      rfl

lemma mark_debate_read_fst_iff (s : Store) (i : Int) :
    (mark_debate_read s i).1 = Except.ok
        { status := "success", message := "Debate marked as read" } ↔
      ∃ r ∈ s.member_debates, r.pk = i ∧ r.is_new = true := by
  rw [mark_debate_read_fst]
  by_cases h0 : (s.member_debates.filter
      (fun r => r.pk == i && r.is_new)).length = 0
  · rw [if_pos h0]
    constructor
    · intro habs
      exact absurd habs (by simp)
    · rintro ⟨r, hr, hc⟩
      exact absurd hc ((matched_zero_iff _ _).1 h0 r hr)
  · rw [if_neg h0]
    constructor
    · intro _
      by_contra hne
      exact h0 ((matched_zero_iff _ _).2 (fun r hr hc => hne ⟨r, hr, hc⟩))
    · intro _
      rfl

lemma mark_question_read_notfound (s : Store) (i : Int)
    (h : ∀ r ∈ s.member_questions, ¬(r.pk = i ∧ r.is_new = true)) :
    mark_question_read s i =
      (Except.error { status_code := 404, detail := "Question not found" }, s) := by
  have h0 := (matched_zero_iff s.member_questions i).2 h
  have hfst : (mark_question_read s i).1 =
      Except.error { status_code := 404, detail := "Question not found" } := by
    rw [mark_question_read_fst, if_pos h0]
  have hsnd : (mark_question_read s i).2 = s := by
    rw [mark_question_read_snd, flip_noop s.member_questions i h]
  calc mark_question_read s i
      = ((mark_question_read s i).1, (mark_question_read s i).2) := rfl
    _ = (Except.error { status_code := 404, detail := "Question not found" }, s) := by
        rw [hfst, hsnd]

lemma mark_debate_read_notfound (s : Store) (i : Int)
    (h : ∀ r ∈ s.member_debates, ¬(r.pk = i ∧ r.is_new = true)) :
    mark_debate_read s i =
      (Except.error { status_code := 404, detail := "Debate not found" }, s) := by
  have h0 := (matched_zero_iff s.member_debates i).2 h
  have hfst : (mark_debate_read s i).1 =
      Except.error { status_code := 404, detail := "Debate not found" } := by
    rw [mark_debate_read_fst, if_pos h0]
  have hsnd : (mark_debate_read s i).2 = s := by
    rw [mark_debate_read_snd, flip_noop s.member_debates i h]
  calc mark_debate_read s i
      = ((mark_debate_read s i).1, (mark_debate_read s i).2) := rfl
    _ = (Except.error { status_code := 404, detail := "Debate not found" }, s) := by
        rw [hfst, hsnd]

lemma mark_question_read_twice (s : Store) (i : Int) :
    mark_question_read (mark_question_read s i).2 i =
      (Except.error { status_code := 404, detail := "Question not found" },
        (mark_question_read s i).2) := by
  apply mark_question_read_notfound
  intro r hr
  exact (matched_zero_iff _ i).1 (flip_no_matched s.member_questions i) r hr

lemma mark_debate_read_twice (s : Store) (i : Int) :
    mark_debate_read (mark_debate_read s i).2 i =
      (Except.error { status_code := 404, detail := "Debate not found" },
        (mark_debate_read s i).2) := by
  apply mark_debate_read_notfound
  intro r hr
  exact (matched_zero_iff _ i).1 (flip_no_matched s.member_debates i) r hr

/-- Claim C2: single-record acknowledgment sets `is_new = false` on the rows
carrying the given key and reports success exactly when an unseen row with
that key existed; with no such row it reports 404 not-found and leaves the
store unchanged; in particular a second acknowledgment of the same key
reports not-found and changes nothing, indistinguishable from acknowledging
a key that never existed. -/
theorem mark_read_single_idempotent (s : Store) (qid did : Int) :
    List.Forall₂ (fun r r' =>
        (r.pk = qid → r' = { r with is_new := false }) ∧ (r.pk ≠ qid → r' = r))
      s.member_questions (mark_question_read s qid).2.member_questions ∧
    ((mark_question_read s qid).1 = Except.ok
        { status := "success", message := "Question marked as read" } ↔
      ∃ r ∈ s.member_questions, r.pk = qid ∧ r.is_new = true) ∧
    ((∀ r ∈ s.member_questions, ¬(r.pk = qid ∧ r.is_new = true)) →
      mark_question_read s qid =
        (Except.error { status_code := 404, detail := "Question not found" }, s)) ∧
    (mark_question_read (mark_question_read s qid).2 qid =
      (Except.error { status_code := 404, detail := "Question not found" },
        (mark_question_read s qid).2)) ∧
    List.Forall₂ (fun r r' =>
        (r.pk = did → r' = { r with is_new := false }) ∧ (r.pk ≠ did → r' = r))
      s.member_debates (mark_debate_read s did).2.member_debates ∧
    ((mark_debate_read s did).1 = Except.ok
        { status := "success", message := "Debate marked as read" } ↔
      ∃ r ∈ s.member_debates, r.pk = did ∧ r.is_new = true) ∧
    ((∀ r ∈ s.member_debates, ¬(r.pk = did ∧ r.is_new = true)) →
      mark_debate_read s did =
        (Except.error { status_code := 404, detail := "Debate not found" }, s)) ∧
    (mark_debate_read (mark_debate_read s did).2 did =
      (Except.error { status_code := 404, detail := "Debate not found" },
        (mark_debate_read s did).2)) :=
  ⟨by rw [mark_question_read_snd]; exact flip_forall2 _ _,
   mark_question_read_fst_iff s qid,
   mark_question_read_notfound s qid,
   mark_question_read_twice s qid,
   by rw [mark_debate_read_snd]; exact flip_forall2 _ _,
   mark_debate_read_fst_iff s did,
   mark_debate_read_notfound s did,
   mark_debate_read_twice s did⟩

theorem mark_read_single_idempotent_witness :
    List.Forall₂ (fun r r' =>
        (r.pk = 1 → r' = { r with is_new := false }) ∧ (r.pk ≠ 1 → r' = r))
      sampleStore.member_questions
      (mark_question_read sampleStore 1).2.member_questions ∧
    ((mark_question_read sampleStore 1).1 = Except.ok
        { status := "success", message := "Question marked as read" } ↔
      ∃ r ∈ sampleStore.member_questions, r.pk = 1 ∧ r.is_new = true) ∧
    ((∀ r ∈ sampleStore.member_questions, ¬(r.pk = 1 ∧ r.is_new = true)) →
      mark_question_read sampleStore 1 =
        (Except.error { status_code := 404, detail := "Question not found" },
          sampleStore)) ∧
    (mark_question_read (mark_question_read sampleStore 1).2 1 =
      (Except.error { status_code := 404, detail := "Question not found" },
        (mark_question_read sampleStore 1).2)) ∧
    List.Forall₂ (fun r r' =>
        (r.pk = 1 → r' = { r with is_new := false }) ∧ (r.pk ≠ 1 → r' = r))
      sampleStore.member_debates
      (mark_debate_read sampleStore 1).2.member_debates ∧
    ((mark_debate_read sampleStore 1).1 = Except.ok
        { status := "success", message := "Debate marked as read" } ↔
      ∃ r ∈ sampleStore.member_debates, r.pk = 1 ∧ r.is_new = true) ∧
    ((∀ r ∈ sampleStore.member_debates, ¬(r.pk = 1 ∧ r.is_new = true)) →
      mark_debate_read sampleStore 1 =
        (Except.error { status_code := 404, detail := "Debate not found" },
          sampleStore)) ∧
    (mark_debate_read (mark_debate_read sampleStore 1).2 1 =
      (Except.error { status_code := 404, detail := "Debate not found" },
        (mark_debate_read sampleStore 1).2)) :=
  mark_read_single_idempotent sampleStore 1 1


/-! ### Per-member activity counts (C1) -/

/-- The failing input for the per-member activity counts: one unseen question
whose owner column `srno` is member 5 and whose `mp_code` column is NULL (the
response model of `member_questions` in `models.py` carries `srno` and no
`mp_code`). -/
def c1Row : Row :=
  { pk := 1, mp_code := none, srno := some 5, is_new := true, scraped_at := 0,
    rest := [] }

/-- A store holding only the single unseen question of member 5. -/
def c1Store : Store := { Store.empty with member_questions := [c1Row] }

/-- Claim C1, evaluated at the failing input: member 5 owns one unseen
question (owner column `srno = 5`), yet `get_member_new_activities` reports
zero new questions and zero total because it filters every table on the
column literally named `mp_code`, so it disagrees with the spec-modelled
owner-key counts. -/
theorem member_new_activities_wrong_owner_column :
    countNewBySrno c1Store.member_questions 5 = 1 ∧
    (get_member_new_activities c1Store 5).activities.new_questions = 0 ∧
    (get_member_new_activities c1Store 5).total_new = 0 ∧
    (spec_member_new_activities c1Store 5).activities.new_questions = 1 ∧
    get_member_new_activities c1Store 5 ≠ spec_member_new_activities c1Store 5 := by
  decide

/-! ### Listing envelopes (C4, C8) -/

/-- Claim C4 counterexample: at a concrete input the debates listing response
carries no `pages` key at all (and no `total` key either; its count is under
`total_new`), so the uniform `{total, page, size, pages, data}` envelope
claim fails on `get_new_debates`. -/
theorem new_debates_envelope_missing_pages :
    (get_new_debates Store.empty 1 50).1.lookup "pages" = none ∧
    (get_new_debates Store.empty 1 50).1.lookup "total" = none := by
  decide

/-- Claim C4 amended: for page ≥ 1 and size ∈ [1,100], every new-data listing
response carries `total_new`, `page`, `size` and `data` with at most `size`
rows, but only `get_new_questions` carries `pages`, equal to
⌈total/size⌉; the other three listings omit `pages`. -/
theorem new_listing_envelope_amended (s : Store) (page size : Nat)
    (_hp : 1 ≤ page) (_hs1 : 1 ≤ size) (_hs2 : size ≤ 100) :
    (get_new_questions s page size).1.lookup "pages" =
      some (JVal.num (unseenCount s "member_questions" ⌈/⌉ size)) ∧
    (get_new_debates s page size).1.lookup "pages" = none ∧
    (get_new_government_bills s page size).1.lookup "pages" = none ∧
    (get_new_special_mentions s page size).1.lookup "pages" = none ∧
    (get_new_questions s page size).1.lookup "total_new" =
      some (JVal.num (unseenCount s "member_questions")) ∧
    (get_new_debates s page size).1.lookup "total_new" =
      some (JVal.num (unseenCount s "member_debates")) ∧
    (get_new_government_bills s page size).1.lookup "total_new" =
      some (JVal.num (unseenCount s "government_bills")) ∧
    (get_new_special_mentions s page size).1.lookup "total_new" =
      some (JVal.num (unseenCount s "member_special_mentions")) ∧
    (respData (get_new_questions s page size).1).length ≤ size ∧
    (respData (get_new_debates s page size).1).length ≤ size ∧
    (respData (get_new_government_bills s page size).1).length ≤ size ∧
    (respData (get_new_special_mentions s page size).1).length ≤ size :=
  ⟨rfl, rfl, rfl, rfl, rfl, rfl, rfl, rfl,
   List.length_take_le _ _, List.length_take_le _ _,
   List.length_take_le _ _, List.length_take_le _ _⟩

theorem new_listing_envelope_amended_witness :
    (get_new_questions sampleStore 1 50).1.lookup "pages" =
      some (JVal.num (unseenCount sampleStore "member_questions" ⌈/⌉ 50)) ∧
    (get_new_debates sampleStore 1 50).1.lookup "pages" = none ∧
    (get_new_government_bills sampleStore 1 50).1.lookup "pages" = none ∧
    (get_new_special_mentions sampleStore 1 50).1.lookup "pages" = none ∧
    (get_new_questions sampleStore 1 50).1.lookup "total_new" =
      some (JVal.num (unseenCount sampleStore "member_questions")) ∧
    (get_new_debates sampleStore 1 50).1.lookup "total_new" =
      some (JVal.num (unseenCount sampleStore "member_debates")) ∧
    (get_new_government_bills sampleStore 1 50).1.lookup "total_new" =
      some (JVal.num (unseenCount sampleStore "government_bills")) ∧
    (get_new_special_mentions sampleStore 1 50).1.lookup "total_new" =
      some (JVal.num (unseenCount sampleStore "member_special_mentions")) ∧
    (respData (get_new_questions sampleStore 1 50).1).length ≤ 50 ∧
    (respData (get_new_debates sampleStore 1 50).1).length ≤ 50 ∧
    (respData (get_new_government_bills sampleStore 1 50).1).length ≤ 50 ∧
    (respData (get_new_special_mentions sampleStore 1 50).1).length ≤ 50 :=
  new_listing_envelope_amended sampleStore 1 50 (by decide) (by decide) (by decide)

/-- Claim C8: each unseen-records listing returns exactly the unseen rows of
its table in some `scraped_at`-descending order, from offset `(page-1)*size`
and at most `size` of them, together with the total unseen count, and leaves
the store untouched (shown for the questions and special-mentions listings,
the two cited). -/
theorem new_listing_returns_unseen_page (s : Store) (page size : Nat) :
    (∃ l : List Row,
      l.Perm (s.member_questions.filter (fun r => r.is_new)) ∧
      List.Sorted scrapedGE l ∧
      respData (get_new_questions s page size).1 =
        (l.drop ((page - 1) * size)).take size) ∧
    (get_new_questions s page size).1.lookup "total_new" =
      some (JVal.num ((s.member_questions.filter (fun r => r.is_new)).length)) ∧
    (respData (get_new_questions s page size).1).length ≤ size ∧
    (get_new_questions s page size).2 = s ∧
    (∃ l : List Row,
      l.Perm (s.member_special_mentions.filter (fun r => r.is_new)) ∧
      List.Sorted scrapedGE l ∧
      respData (get_new_special_mentions s page size).1 =
        (l.drop ((page - 1) * size)).take size) ∧
    (get_new_special_mentions s page size).1.lookup "total_new" =
      some (JVal.num
        ((s.member_special_mentions.filter (fun r => r.is_new)).length)) ∧
    (respData (get_new_special_mentions s page size).1).length ≤ size ∧
    (get_new_special_mentions s page size).2 = s :=
  ⟨⟨orderByScrapedDesc (s.member_questions.filter (fun r => r.is_new)),
    List.perm_insertionSort scrapedGE _,
    List.sorted_insertionSort scrapedGE _, rfl⟩,
   rfl, List.length_take_le _ _, rfl,
   ⟨orderByScrapedDesc (s.member_special_mentions.filter (fun r => r.is_new)),
    List.perm_insertionSort scrapedGE _,
    List.sorted_insertionSort scrapedGE _, rfl⟩,
   rfl, List.length_take_le _ _, rfl⟩

/-! ### Frame and monotonicity of the operations (C9, C10) -/

lemma getTable_setTable_ne (s : Store) {t tn : String} (ht : t ∈ trackedTables)
    (htn : tn ∈ allowed_tables) (hne : t ≠ tn) (l : List Row) :
    getTable (setTable s tn l) t = getTable s t := by
  rcases allowed_cases htn with rfl | rfl | rfl | rfl | rfl | rfl | rfl <;>
    rcases tracked_cases ht with
      rfl | rfl | rfl | rfl | rfl | rfl | rfl | rfl | rfl | rfl | rfl | rfl | rfl <;>
    first
      | exact absurd rfl hne
      | rfl

lemma mark_all_read_snd_of_mem (s : Store) {tn : String}
    (h : tn ∈ allowed_tables) :
    (mark_all_read s tn).2 = setTable s tn ((getTable s tn).map
      (fun r => if r.is_new then { r with is_new := false } else r)) := by
  rw [mark_all_read, if_pos h]

lemma mark_all_read_snd_of_not_mem (s : Store) {tn : String}
    (h : tn ∉ allowed_tables) : (mark_all_read s tn).2 = s := by
  rw [mark_all_read, if_neg h]

lemma apply_scrape_tracker (op : Op) (s : Store) :
    (Op.apply op s).scrape_tracker = s.scrape_tracker := by
  cases op
  case markAllReadOp tn =>
    by_cases h : tn ∈ allowed_tables
    · show (mark_all_read s tn).2.scrape_tracker = s.scrape_tracker
      rw [mark_all_read_snd_of_mem s h]
      exact setTable_scrape_tracker s (allowed_mem_tracked h) _
    · show (mark_all_read s tn).2.scrape_tracker = s.scrape_tracker
      rw [mark_all_read_snd_of_not_mem s h]
  all_goals rfl

/-- How every operation acts on every tracked table: either it leaves the
table as it was, or it maps over it a row function that never raises
`is_new`, changes nothing else, and fixes every untargeted row. -/
lemma apply_getTable_cases (op : Op) (s : Store) {t : String}
    (ht : t ∈ trackedTables) :
    getTable (Op.apply op s) t = getTable s t ∨
    ∃ f : Row → Row,
      (∀ r, ((f r).is_new = true → r.is_new = true) ∧
        (¬ targetsRow op t r → f r = r) ∧ rowFrame r (f r)) ∧
      getTable (Op.apply op s) t = (getTable s t).map f := by
  cases op
  case markQuestionReadOp i =>
    by_cases hq : t = "member_questions"
    · subst hq
      refine Or.inr ⟨fun r => if r.pk == i then { r with is_new := false } else r,
        fun r => ?_, rfl⟩
      by_cases hpk : r.pk = i <;>
        simp [targetsRow, rowFrame, hpk]
    · refine Or.inl ?_
      rcases tracked_cases ht with
        rfl | rfl | rfl | rfl | rfl | rfl | rfl | rfl | rfl | rfl | rfl | rfl | rfl <;>
        first
          | exact absurd rfl hq
          | rfl
  case markDebateReadOp i =>
    by_cases hq : t = "member_debates"
    · subst hq
      refine Or.inr ⟨fun r => if r.pk == i then { r with is_new := false } else r,
        fun r => ?_, rfl⟩
      by_cases hpk : r.pk = i <;>
        simp [targetsRow, rowFrame, hpk]
    · refine Or.inl ?_
      rcases tracked_cases ht with
        rfl | rfl | rfl | rfl | rfl | rfl | rfl | rfl | rfl | rfl | rfl | rfl | rfl <;>
        first
          | exact absurd rfl hq
          | rfl
  case markAllReadOp tn =>
    by_cases hmem : tn ∈ allowed_tables
    · by_cases heq : t = tn
      · subst heq
        refine Or.inr ⟨fun r => if r.is_new then { r with is_new := false } else r,
          fun r => ?_, ?_⟩
        · refine ⟨?_, fun hn => absurd ⟨hmem, rfl⟩ hn, ?_⟩
          · cases hr : r.is_new <;> simp [hr]
          · cases hr : r.is_new <;> simp [rowFrame, hr]
        · show getTable (mark_all_read s t).2 t = _
          rw [mark_all_read_snd_of_mem s hmem,
            getTable_setTable_same s (allowed_mem_tracked hmem)]
      · refine Or.inl ?_
        show getTable (mark_all_read s tn).2 t = getTable s t
        rw [mark_all_read_snd_of_mem s hmem]
        exact getTable_setTable_ne s ht hmem heq _
    · refine Or.inl ?_
      show getTable (mark_all_read s tn).2 t = getTable s t
      rw [mark_all_read_snd_of_not_mem s hmem]
  all_goals exact Or.inl rfl

/-- Claim C9: under every operation of the subsystem, the `is_new` flag of a
row can only move from `true` to `false`: a row that is unseen after the
operation was already unseen before it; no operation sets `is_new = true`. -/
theorem is_new_only_true_to_false (op : Op) (s : Store) (t : String)
    (ht : t ∈ trackedTables) :
    List.Forall₂ (fun r r' => r'.is_new = true → r.is_new = true)
      (getTable s t) (getTable (Op.apply op s) t) := by
  rcases apply_getTable_cases op s ht with heq | ⟨f, hf, heq⟩
  · rw [heq]
    exact List.forall₂_same.2 (fun r _ h => h)
  · rw [heq, List.forall₂_map_right_iff]
    exact List.forall₂_same.2 (fun r _ => (hf r).1)

theorem is_new_only_true_to_false_witness :
    List.Forall₂ (fun r r' => r'.is_new = true → r.is_new = true)
      (getTable sampleStore "member_questions")
      (getTable (Op.apply (Op.markAllReadOp "member_questions") sampleStore)
        "member_questions") :=
  is_new_only_true_to_false (Op.markAllReadOp "member_questions") sampleStore
    "member_questions" (by decide)

/-- Claim C10: every operation leaves the scrape tracker unchanged and, on
every tracked table, preserves every row field other than `is_new`; rows the
request does not target (for the acknowledgment operations: other keys,
other tables) are left entirely unchanged. -/
theorem ops_modify_only_is_new (op : Op) (s : Store) :
    (Op.apply op s).scrape_tracker = s.scrape_tracker ∧
    ∀ t, t ∈ trackedTables →
      List.Forall₂ (fun r r' => rowFrame r r' ∧ (¬ targetsRow op t r → r' = r))
        (getTable s t) (getTable (Op.apply op s) t) := by
  refine ⟨apply_scrape_tracker op s, fun t ht => ?_⟩
  rcases apply_getTable_cases op s ht with heq | ⟨f, hf, heq⟩
  · rw [heq]
    exact List.forall₂_same.2 (fun r _ => ⟨⟨rfl, rfl, rfl, rfl, rfl⟩, fun _ => rfl⟩)
  · rw [heq, List.forall₂_map_right_iff]
    exact List.forall₂_same.2 (fun r _ => ⟨(hf r).2.2, (hf r).2.1⟩)

theorem ops_modify_only_is_new_witness :
    (Op.apply (Op.markQuestionReadOp 1) sampleStore).scrape_tracker =
      sampleStore.scrape_tracker ∧
    ∀ t, t ∈ trackedTables →
      List.Forall₂ (fun r r' => rowFrame r r' ∧
          (¬ targetsRow (Op.markQuestionReadOp 1) t r → r' = r))
        (getTable sampleStore t)
        (getTable (Op.apply (Op.markQuestionReadOp 1) sampleStore) t) :=
  ops_modify_only_is_new (Op.markQuestionReadOp 1) sampleStore

end LokSabha
